import Mathlib

/-
Verification development for the batched beam-search decoding loop of the
RNN-Transducer model (`BeamBatchedRNNTLoopLabelsComputer` and `LoopLabelsState`
in `nemo/collections/asr/parts/submodules/rnnt_beam_loop_labels_computer.py`).

Modelling conventions:
* Log-probabilities are exact integers; `none` stands for `float("-inf")`
  (the exclusion sentinel used by the code).  `log_softmax` composed with
  `joint_after_projection` is folded into the black-box joint collaborator,
  which directly produces the per-token log-probability vector.
* An encoder frame is identified by its `(batch, time)` index: the frame
  content is an opaque vector consumed only by the joint network, so the
  identification is an injective renaming.
* Decoder outputs and decoder states are opaque tokens, carried as naturals.
* Tensor indexing out of range is an `indexOutOfBounds` error, a failed
  `assert` is `assertFailed`, `exit()` is `processExit`, and `torch.topk`
  with `k` larger than the number of elements is `topkTooLarge`.
* Loops are embedded with fuel; `fuelExhausted` never occurs in the runs
  used by the theorems below.
-/

/-- Log-probability value: `none` models `float("-inf")`. -/
abbrev Logp := Option Int

/-- Addition on log-probabilities, with `-inf` absorbing (as for floats). -/
def lpAdd : Logp → Logp → Logp
  | some a, some b => some (a + b)
  | _, _ => none

/-- Strict order on log-probabilities: `-inf` is below every finite value. -/
def lpLt : Logp → Logp → Bool
  | none, none => false
  | none, some _ => true
  | some _, none => false
  | some a, some b => decide (a < b)

/-- Errors that abort a decode call. -/
inductive DErr where
  | indexOutOfBounds
  | assertFailed
  | processExit
  | topkTooLarge
  | shapeMismatch
  | fuelExhausted
deriving DecidableEq, Repr

/-- Flatten a two-level list (used for `.flatten()` on a (batch, beam) tensor). -/
def flat2 {α : Type} : List (List α) → List α
  | [] => []
  | r :: rs => r ++ flat2 rs

/-- Disjunction over a (batch, beam) boolean mask, as in `mask.any()`. -/
def any2 (m : List (List Bool)) : Bool := m.any (fun r => r.any id)

/-- Disjunction over a (batch, beam, beam) boolean mask. -/
def any3 (m : List (List (List Bool))) : Bool := m.any (fun r => any2 r)

/-- Elementwise `torch.logical_and` on (batch, beam) masks. -/
def and2 (a b : List (List Bool)) : List (List Bool) :=
  List.zipWith (fun r s => List.zipWith (· && ·) r s) a b

/-- Elementwise `torch.logical_and` on (batch, beam, beam) masks. -/
def and3 (a b : List (List (List Bool))) : List (List (List Bool)) :=
  List.zipWith and2 a b

/-- Running cumulative sum (`torch.cumsum`) along a list of log-probs. -/
def cumsumGo (acc : Logp) : List Logp → List Logp
  | [] => []
  | x :: xs => lpAdd acc x :: cumsumGo (lpAdd acc x) xs

/-- Cumulative sum starting from zero, as `torch.cumsum(xs, dim)`. -/
def cumsumList (xs : List Logp) : List Logp := cumsumGo (some 0) xs

/-- Model of `torch.repeat_interleave(n, dim=-1)`: each entry repeated `n`
times consecutively. -/
def repInter {α : Type} (n : Nat) : List α → List α
  | [] => []
  | x :: xs => List.replicate n x ++ repInter n xs

/-- One comparison step of the top-k scan: keep the current best unless the
new candidate is strictly larger (so the earliest maximal index wins). -/
def chooseMax (acc : Option (Nat × Logp)) (p : Nat × Logp) : Option (Nat × Logp) :=
  match acc with
  | none => some p
  | some q => if lpLt q.2 p.2 then some p else some q

/-- Index of a maximal element of an indexed pool (first maximal index wins). -/
def argmaxP (pool : List (Nat × Logp)) : Option (Nat × Logp) :=
  pool.foldl chooseMax none

/-- Selection loop of `torch.topk`: repeatedly extract a maximal element. -/
def topkGo : Nat → List (Nat × Logp) → List Nat
  | 0, _ => []
  | k + 1, pool =>
    match argmaxP pool with
    | none => []
    | some p => p.1 :: topkGo k (pool.eraseP (fun q => q.1 == p.1))

/-- Pair every element of a log-prob list with its index. -/
def enumL (xs : List Logp) : List (Nat × Logp) := (List.range xs.length).zip xs

/-- Model of `torch.topk(xs, k)`: the indices of the `k` largest entries in
descending order and their values; errors when `k` exceeds the length. -/
def topkChecked (k : Nat) (xs : List Logp) : Except DErr (List Nat × List Logp) :=
  if k ≤ xs.length then
    let idx := topkGo k (enumL xs)
    .ok (idx, idx.map (fun i => xs.getD i none))
  else .error .topkTooLarge

theorem chooseMax_isSome (acc : Option (Nat × Logp)) (p : Nat × Logp) :
    (chooseMax acc p).isSome := by
  cases acc with
  | none => rfl
  | some q =>
    simp only [chooseMax]
    split <;> rfl

theorem foldl_chooseMax_isSome (l : List (Nat × Logp)) :
    ∀ q : Nat × Logp, (l.foldl chooseMax (some q)).isSome := by
  induction l with
  | nil => intro q; rfl
  | cons x xs ih =>
    intro q
    simp only [List.foldl_cons]
    have h := chooseMax_isSome (some q) x
    cases hc : chooseMax (some q) x with
    | none => rw [hc] at h; simp at h
    | some r => exact ih r

theorem argmaxP_isSome (pool : List (Nat × Logp)) (h : pool ≠ []) :
    (argmaxP pool).isSome := by
  cases pool with
  | nil => exact absurd rfl h
  | cons x xs =>
    simp only [argmaxP, List.foldl_cons]
    have : chooseMax none x = some x := rfl
    rw [this]
    exact foldl_chooseMax_isSome xs x

theorem foldl_chooseMax_mem (l : List (Nat × Logp)) :
    ∀ (acc : Option (Nat × Logp)) (p : Nat × Logp),
      l.foldl chooseMax acc = some p → p ∈ l ∨ acc = some p := by
  induction l with
  | nil => intro acc p h; exact Or.inr h
  | cons x xs ih =>
    intro acc p h
    simp only [List.foldl_cons] at h
    rcases ih (chooseMax acc x) p h with hmem | hacc
    · exact Or.inl (List.mem_cons_of_mem _ hmem)
    · cases acc with
      | none =>
        simp only [chooseMax] at hacc
        exact Or.inl (by rw [← Option.some_inj.mp hacc]; exact List.mem_cons_self x xs)
      | some q =>
        simp only [chooseMax] at hacc
        split at hacc
        · exact Or.inl (by rw [← Option.some_inj.mp hacc]; exact List.mem_cons_self x xs)
        · exact Or.inr hacc

theorem argmaxP_mem (pool : List (Nat × Logp)) (p : Nat × Logp)
    (h : argmaxP pool = some p) : p ∈ pool := by
  rcases foldl_chooseMax_mem pool none p h with hmem | hacc
  · exact hmem
  · exact absurd hacc (by simp)

theorem length_eraseP_mem {α : Type} {q : α → Bool} {l : List α} {a : α}
    (ha : a ∈ l) (hq : q a = true) : (l.eraseP q).length + 1 = l.length := by
  induction l with
  | nil => cases ha
  | cons x xs ih =>
    by_cases hx : q x = true
    · simp [List.eraseP_cons, hx]
    · rcases List.mem_cons.mp ha with rfl | hmem
      · exact absurd hq hx
      · have hxf : q x = false := by
          revert hx; cases q x <;> simp
        simp only [List.eraseP_cons, hxf, cond_false, List.length_cons]
        rw [ih hmem]

theorem topkGo_length : ∀ (k : Nat) (pool : List (Nat × Logp)),
    k ≤ pool.length → (topkGo k pool).length = k := by
  intro k
  induction k with
  | zero => intro pool _; rfl
  | succ n ih =>
    intro pool hk
    have hne : pool ≠ [] := by
      intro h; rw [h] at hk; simp at hk
    have hs := argmaxP_isSome pool hne
    cases hp : argmaxP pool with
    | none => rw [hp] at hs; simp at hs
    | some p =>
      have hmem := argmaxP_mem pool p hp
      have hql : (p.1 == p.1) = true := by simp
      have hlen := @length_eraseP_mem _ (fun q => q.1 == p.1) pool p hmem hql
      simp only [topkGo, hp, List.length_cons]
      rw [ih (pool.eraseP (fun q => q.1 == p.1)) (by omega)]

theorem topkChecked_ok_length (k : Nat) (xs : List Logp)
    (r : List Nat × List Logp) (h : topkChecked k xs = .ok r) :
    r.1.length = k ∧ r.2.length = k := by
  unfold topkChecked at h
  split at h
  · next hk =>
    have hlen : (enumL xs).length = xs.length := by
      simp [enumL]
    have h1 : (topkGo k (enumL xs)).length = k :=
      topkGo_length k (enumL xs) (by omega)
    cases h
    constructor
    · exact h1
    · simpa using h1
  · cases h

/-- External collaborators of the decoding loop (prediction network and joint
network), treated as black boxes.  `predict` maps a previous label and a
decoder state to a (projected) decoder output and a new state; `jointLogps`
maps a batch row, an encoder time index and a decoder output to the
log-probability vector over the vocabulary (blank conventionally last).
`jointLogps` models `log_softmax(joint_after_projection(enc[b, t], dec))`. -/
structure Collab where
  vocabSize : Nat
  blankIdx : Nat
  initState : Nat
  predict : Nat → Nat → Nat × Nat
  jointLogps : Nat → Nat → Nat → List Logp

/-- Indexing the projected encoder output along the time dimension: an index
past `max_time` is a tensor indexing error. -/
def getFrame (maxT t : Nat) : Except DErr Nat :=
  if t < maxT then .ok t else .error .indexOutOfBounds

/-- Check that every required time index is inside the encoder storage. -/
def checkFrames (maxT : Nat) (idxs : List Nat) : Except DErr Unit :=
  if idxs.all (fun t => t < maxT) then .ok () else .error .indexOutOfBounds

/-- Clamped time index, from
`torch.minimum(time_indices, encoder_output_length - 1)` (source lines
303 and 327).  Lengths are assumed positive, as everywhere in this file. -/
def safe_time (t len : Nat) : Nat := min t (len - 1)

/-- Clamped flattened (batch*beam) time indices; slot `i` belongs to batch
row `i / beam`. -/
def safeTimes (beam : Nat) (lens : List Nat) (time : List Nat) : List Nat :=
  (List.range time.length).map
    (fun i => safe_time (time.getD i 0) (lens.getD (i / beam) 0))

/-- Model of `torch.device`: a device type together with an optional index
(`torch.device("cpu").index` is `None`, `torch.device("cuda", 0).index`
is `0`). -/
structure TorchDevice where
  deviceType : Nat
  index : Option Int
deriving DecidableEq, Repr

/-- Capacity-relevant fields of `LoopLabelsState` (the preallocated scratch
state). -/
structure LoopLabelsState where
  batch_size : Nat
  max_time : Nat
  device : TorchDevice
deriving DecidableEq, Repr

/-- Embeds `LoopLabelsState.need_reinit` (source lines 148-154): the stored
batch capacity is smaller than the incoming batch dimension, or the stored
time capacity is smaller than the incoming time dimension, or the stored
device INDEX differs from the incoming tensor device index. -/
def need_reinit (s : LoopLabelsState) (shape0 shape1 : Nat) (dev : TorchDevice) : Bool :=
  decide (s.batch_size < shape0) || decide (s.max_time < shape1) ||
    decide (s.device.index ≠ dev.index)

/-- Fields of `BeamBatchedRNNTLoopLabelsComputer` fixed at construction. -/
structure BeamComputer where
  blank_index : Nat
  sos : Nat
  max_symbols : Option Nat
  beam_size : Nat
  max_steps : Nat
deriving DecidableEq, Repr

/-- Embeds `BeamBatchedRNNTLoopLabelsComputer.__init__` (source lines
194-210): `_SOS = _blank_index`, and `beam_size = min(beam_size,
vocab_size)` where `vocab_size = len(joint.vocabulary)`. -/
def mkBeamComputer (c : Collab) (beamArg : Nat) (maxSym : Option Nat) : BeamComputer :=
  { blank_index := c.blankIdx
    sos := c.blankIdx
    max_symbols := maxSym
    beam_size := min beamArg c.vocabSize
    max_steps := 5 }

/-- Modelled from the spec: `rnnt_utils.BeamBatchedHyps`, the per-(batch,
beam) hypothesis ledger, is not part of the provided sources; its observable
fields follow spec section 4.1: cumulative `score`, `last_timestep`, and the
emitted label sequence per slot. -/
structure BeamBatchedHyps where
  scores : List (List Logp)
  lastTimestep : List (List Nat)
  transcripts : List (List (List Nat))
deriving DecidableEq, Repr

/-- Result of `initialize_beam` for one batch row: selected first labels and
the ledger row contents written by `append_labels`. -/
structure RowInit where
  labels : List Nat
  scores : List Logp
  lt : List Nat
  tr : List (List Nat)
deriving DecidableEq, Repr

/-- Result of the computer's `update_beam` for one batch row: the selected
labels, parent beam indices, blank counts, and the updated ledger row. -/
structure RowSel where
  labels : List Nat
  beamIdx : List Nat
  numBlanks : List Nat
  scores2 : List Logp
  lt2 : List Nat
  tr2 : List (List Nat)
deriving DecidableEq, Repr

/-- Embeds a Python `assert`: an `AssertionError` aborts the call. -/
def assertCheck (b : Bool) : Except DErr Unit :=
  if b then .ok () else .error .assertFailed

/-- Broadcast size of two tensor dimensions (`torch` semantics: equal sizes,
or one of them is 1; otherwise a shape error). -/
def bcLen (n m : Nat) : Option Nat :=
  if n = m then some n else if n = 1 then some m else if m = 1 then some n else none

/-- Read an element of a possibly-broadcast dimension of size `n`. -/
def bcGet {α : Type} (xs : List α) (n i : Nat) (d : α) : α :=
  if n = 1 then xs.getD 0 d else xs.getD i d

/-- Embeds `BeamBatchedRNNTLoopLabelsComputer.initialize_beam` (source lines
365-413) for one batch row.  `labelsD`, `labelLogpsD` are the per-depth
top-`beam` labels and log-probs collected by the seed loop (`torch.cat`
along depth), `blankD` the per-depth blank log-probs (a leading zero entry
first).  The blank log-probs are cumulatively summed along depth and
repeat-interleaved; the addition producing `total_logps` (line 380) follows
`torch` broadcast rules (a `RuntimeError` for incompatible shapes); the
boolean-mask assignment `total_logps[blank_mask] = -inf` (line 388) does
NOT broadcast — `torch` raises an `IndexError` whenever the mask's shape
differs from the indexed tensor's, in particular when the label depth and
the blank depth disagree (seed loop with zero iterations: 1 vs 2); then the
global top-`beam` is selected, and the two `assert` statements and the
ledger write (`append_labels`, modelled from the spec) follow. -/
def initBeamRow (blank beam : Nat) (labelsD : List (List Nat))
    (labelLogpsD : List (List Logp)) (blankD : List Logp) :
    Except DErr RowInit :=
  let labFlat := flat2 labelsD
  let llpFlat := flat2 labelLogpsD
  let rep := repInter beam (cumsumList blankD)
  let n := labFlat.length
  let m := rep.length
  match bcLen n m with
  | none => .error .shapeMismatch
  | some sz =>
    if n = sz then
    let tot := (List.range sz).map (fun i =>
      if labFlat.getD i 0 == blank then none
      else lpAdd (llpFlat.getD i none) (bcGet rep m i none))
    match topkChecked beam tot with
    | .error e => .error e
    | .ok pr =>
      let idx := pr.1
      let vals := pr.2
      let numBlanks := idx.map (fun i => i / beam)
      match assertCheck (idx.all (fun i => i < n)) with
      | .error _ => .error .indexOutOfBounds
      | .ok _ =>
        match assertCheck (idx.all (fun i => i < m)) with
        | .error _ => .error .indexOutOfBounds
        | .ok _ =>
          let selLab := idx.map (fun i => labFlat.getD i 0)
          let selLlp := idx.map (fun i => llpFlat.getD i none)
          let selBlk := idx.map (fun i => rep.getD i none)
          match assertCheck (vals.all (fun v => v.isSome)) with
          | .error e => .error e
          | .ok _ =>
            match assertCheck ((vals.zip (selLlp.zip selBlk)).all
                (fun p => p.1 == lpAdd p.2.1 p.2.2)) with
            | .error e => .error e
            | .ok _ =>
              .ok { labels := selLab
                    scores := List.zipWith lpAdd selLlp selBlk
                    lt := numBlanks
                    tr := selLab.map (fun l => [l]) }
    else .error .indexOutOfBounds

/-- Embeds `BeamBatchedRNNTLoopLabelsComputer.update_beam` (source lines
415-471) for one batch row.  The per-depth candidate tensors are stacked
along a new depth dimension; the blank log-probs keep their trailing
singleton axis, so the `torch.cumsum(..., dim=-1)` of the source acts on
that singleton axis (it is the literal translation of the source, whatever
its intent); parent scores broadcast over depth and candidates;
blank-ending candidates are masked to `-inf`; the flattened global
top-`beam` is selected; the three `assert` statements and the ledger update
(`update_beam` on the hypotheses, modelled from the spec: parent score plus
increments, `last_timestep` advanced by `num_blanks + 1`) follow.  Depth
dimensions of unequal size follow `torch` broadcast rules in the addition
producing `total_logps` (line 432), but the boolean-mask assignment
`total_logps[blank_mask] = -inf` (line 441) does NOT broadcast: `torch`
raises an `IndexError` whenever the label depth differs from the
broadcast depth (inner loop with zero iterations: 1 vs 2). -/
def updateBeamRow (blank beam : Nat) (rowScores : List Logp) (rowLt : List Nat)
    (rowTr : List (List Nat)) (labelsD : List (List (List Nat)))
    (labelLogpsD : List (List (List Logp))) (blankD : List (List (List Logp))) :
    Except DErr RowSel :=
  let dl := labelsD.length
  let db := blankD.length
  let rep := blankD.map (fun jm => jm.map (fun xs => repInter beam (cumsumList xs)))
  match bcLen dl db with
  | none => .error .shapeMismatch
  | some dd =>
    if dl = dd then
    let lab3 := fun (i : Nat) =>
      ((labelsD.getD (i / (beam * beam)) []).getD
        (i % (beam * beam) / beam) []).getD (i % beam) 0
    let llp3 := fun (i : Nat) =>
      ((labelLogpsD.getD (i / (beam * beam)) []).getD
        (i % (beam * beam) / beam) []).getD (i % beam) none
    let blk3 := fun (i : Nat) =>
      ((rep.getD (if db = 1 then 0 else i / (beam * beam)) []).getD
        (i % (beam * beam) / beam) []).getD (i % beam) none
    let tot := (List.range (dd * beam * beam)).map (fun i =>
      if lab3 i == blank then none
      else lpAdd (rowScores.getD (i % (beam * beam) / beam) none)
        (lpAdd (llp3 i) (blk3 i)))
    match topkChecked beam tot with
    | .error e => .error e
    | .ok pr =>
      let idx := pr.1
      let vals := pr.2
      let nb := idx.map (fun i => i / (beam * beam))
      let bi := idx.map (fun i => i % (beam * beam) / beam)
      match assertCheck (idx.all (fun i => i < dl * beam * beam)) with
      | .error _ => .error .indexOutOfBounds
      | .ok _ =>
        match assertCheck (idx.all (fun i => i < db * beam * beam)) with
        | .error _ => .error .indexOutOfBounds
        | .ok _ =>
          let selLab := idx.map (fun i =>
            ((labelsD.getD (i / (beam * beam)) []).getD
              (i % (beam * beam) / beam) []).getD (i % beam) 0)
          let selLlp := idx.map (fun i =>
            ((labelLogpsD.getD (i / (beam * beam)) []).getD
              (i % (beam * beam) / beam) []).getD (i % beam) none)
          let selBlk := idx.map (fun i =>
            ((rep.getD (i / (beam * beam)) []).getD
              (i % (beam * beam) / beam) []).getD (i % beam) none)
          match assertCheck (vals.all (fun v => v.isSome)) with
          | .error e => .error e
          | .ok _ =>
            match assertCheck (bi.all (fun j => j < beam)) with
            | .error e => .error e
            | .ok _ =>
              match assertCheck (nb.all (fun d => d < labelsD.length)) with
              | .error e => .error e
              | .ok _ =>
                .ok { labels := selLab
                      beamIdx := bi
                      numBlanks := nb
                      scores2 := (bi.zip (selLlp.zip selBlk)).map
                        (fun p => lpAdd (rowScores.getD p.1 none) (lpAdd p.2.1 p.2.2))
                      lt2 := (bi.zip nb).map (fun p => rowLt.getD p.1 0 + p.2 + 1)
                      tr2 := (bi.zip selLab).map (fun p => rowTr.getD p.1 [] ++ [p.2]) }
    else .error .indexOutOfBounds

/-- Top-k over each slot of a (batch, vocab) log-prob tensor. -/
def topkRows (beam : Nat) : List (List Logp) →
    Except DErr (List (List Nat) × List (List Logp))
  | [] => .ok ([], [])
  | x :: xs =>
    match topkChecked beam x with
    | .error e => .error e
    | .ok p =>
      match topkRows beam xs with
      | .error e => .error e
      | .ok r => .ok (p.1 :: r.1, p.2 :: r.2)

/-- Top-k over each slot of a (batch, beam, vocab) log-prob tensor. -/
def topkRows2 (beam : Nat) : List (List (List Logp)) →
    Except DErr (List (List (List Nat)) × List (List (List Logp)))
  | [] => .ok ([], [])
  | x :: xs =>
    match topkRows beam x with
    | .error e => .error e
    | .ok p =>
      match topkRows2 beam xs with
      | .error e => .error e
      | .ok r => .ok (p.1 :: r.1, p.2 :: r.2)

/-- Monadic map over `[start, start + n)`. -/
def mapMRange {ρ : Type} (f : Nat → Except DErr ρ) : Nat → Nat → Except DErr (List ρ)
  | _, 0 => .ok []
  | start, n + 1 =>
    match f start with
    | .error e => .error e
    | .ok x =>
      match mapMRange f (start + 1) n with
      | .error e => .error e
      | .ok xs => .ok (x :: xs)

/-- The (batch, beam) active mask `batched_hyps.last_timestep <
encoder_output_length.unsqueeze(1)` (source lines 296 and 358). -/
def activeMaskH (lt : List (List Nat)) (lens : List Nat) : List (List Bool) :=
  (List.range lt.length).map (fun b =>
    (lt.getD b []).map (fun t => decide (t < lens.getD b 0)))

/-- Accumulator of the seed-phase blank-resolution loop (source lines
251-289).  The per-batch time indices are incremented in lockstep, so a
single scalar `t` carries them; `decOut`, `dstate` and `predictCalls` are
the decoder output, decoder state and number of `decoder.predict` calls so
far — the loop reuses the decoder output and never calls `predict`. -/
structure SeedAcc where
  t : Nat
  decOut : List Nat
  dstate : Nat
  predictCalls : Nat
  blankMask : List (List Bool)
  labelsL : List (List (List Nat))
  labelLogpsL : List (List (List Logp))
  blankLogpsL : List (List Logp)
deriving DecidableEq, Repr

/-- Log-probs of every batch row at time `t` for the current decoder output. -/
def seedLg (c : Collab) (batch t : Nat) (decOut : List Nat) : List (List Logp) :=
  (List.range batch).map (fun b => c.jointLogps b t (decOut.getD b 0))

/-- One iteration of the seed-phase blank loop (source lines 270-289):
advance the time index, (unclamped and unbounded by the utterance length)
re-query the joint at the new frame with the same decoder output, take the
top-`beam` labels, and extend the accumulated candidate lists; the blank
log-prob is appended only when the conjoined blank mask is still set. -/
def seedStep (c : Collab) (blank beam maxT batch : Nat) (acc : SeedAcc) :
    Except DErr SeedAcc :=
  let t2 := acc.t + 1
  match checkFrames maxT [t2] with
  | .error e => .error e
  | .ok _ =>
    let lg := seedLg c batch t2 acc.decOut
    match topkRows beam lg with
    | .error e => .error e
    | .ok tk =>
      let bm2 := and2 acc.blankMask (tk.1.map (fun r => r.map (fun l => l == blank)))
      let blankLp := lg.map (fun xs => xs.getD (xs.length - 1) none)
      .ok { acc with
            t := t2
            blankMask := bm2
            labelsL := acc.labelsL ++ [tk.1]
            labelLogpsL := acc.labelLogpsL ++ [tk.2]
            blankLogpsL :=
              if any2 bm2 then acc.blankLogpsL ++ [blankLp] else acc.blankLogpsL }

/-- The seed-phase blank loop `while blank_mask.any()` (source line 270). -/
def seedLoop (c : Collab) (blank beam maxT batch : Nat) :
    Nat → SeedAcc → Except DErr SeedAcc
  | 0, _ => .error .fuelExhausted
  | f + 1, acc =>
    if any2 acc.blankMask then
      match seedStep c blank beam maxT batch acc with
      | .error e => .error e
      | .ok acc2 => seedLoop c blank beam maxT batch f acc2
    else .ok acc

/-- The seed phase (source lines 251-289): one `decoder.predict` call with
the start-of-sequence (= blank) token, the joint query at frame 0, the
initial top-`beam` selection, and the seed blank loop. -/
def seedPhase (c : Collab) (blank beam maxT batch fuel : Nat) :
    Except DErr SeedAcc :=
  let pr := c.predict blank c.initState
  let decOut := List.replicate batch pr.1
  match checkFrames maxT [0] with
  | .error e => .error e
  | .ok _ =>
    let lg := seedLg c batch 0 decOut
    match topkRows beam lg with
    | .error e => .error e
    | .ok tk =>
      let blankLp := lg.map (fun xs => xs.getD (xs.length - 1) none)
      seedLoop c blank beam maxT batch fuel
        { t := 0
          decOut := decOut
          dstate := pr.2
          predictCalls := 1
          blankMask := tk.1.map (fun r => r.map (fun l => l == blank))
          labelsL := [tk.1]
          labelLogpsL := [tk.2]
          blankLogpsL := [List.replicate batch (some 0), blankLp] }

/-- Run `initialize_beam` on every batch row and assemble the fresh ledger
and the selected first labels. -/
def initBeamAll (blank beam batch : Nat) (acc : SeedAcc) :
    Except DErr (BeamBatchedHyps × List (List Nat)) :=
  match mapMRange (fun b =>
      initBeamRow blank beam
        (acc.labelsL.map (fun e => e.getD b []))
        (acc.labelLogpsL.map (fun e => e.getD b []))
        (acc.blankLogpsL.map (fun e => e.getD b (some 0)))) 0 batch with
  | .error e => .error e
  | .ok rows =>
    .ok ({ scores := rows.map (fun r => r.scores)
           lastTimestep := rows.map (fun r => r.lt)
           transcripts := rows.map (fun r => r.tr) },
         rows.map (fun r => r.labels))

/-- Accumulator of the per-EXPAND blank-resolution loop (source lines
306-348).  `time` is the flattened (batch*beam) time-index tensor;
`decOut` and `predictCalls` are untouched by the loop: the joint is
re-queried with the same decoder output and `predict` is not invoked. -/
structure InnerAcc where
  time : List Nat
  decOut : List Nat
  predictCalls : Nat
  blankMask : List (List (List Bool))
  activeMask : List (List Bool)
  labelsL : List (List (List (List Nat)))
  labelLogpsL : List (List (List (List Logp)))
  blankLogpsL : List (List (List (List Logp)))
deriving DecidableEq, Repr

/-- Joint log-probs of every (batch, beam) slot at the given clamped
flattened time indices. -/
def expandLg (c : Collab) (beam batch : Nat) (safe decOut : List Nat) :
    List (List (List Logp)) :=
  (List.range batch).map (fun b =>
    (List.range beam).map (fun k =>
      c.jointLogps b (safe.getD (b * beam + k) 0) (decOut.getD (b * beam + k) 0)))

/-- The per-slot blank log-prob `logps[..., -1].unsqueeze(-1)` with its
trailing singleton axis kept (source lines 313 and 346). -/
def blankLast3 (lg : List (List (List Logp))) : List (List (List Logp)) :=
  lg.map (fun r => r.map (fun xs => [xs.getD (xs.length - 1) none]))

/-- The (batch, beam) mask `time_indices.view(batch, beam) <
encoder_output_length.unsqueeze(-1)` (source line 342). -/
def activeMaskT (beam batch : Nat) (time : List Nat) (lens : List Nat) :
    List (List Bool) :=
  (List.range batch).map (fun b =>
    (List.range beam).map (fun k =>
      decide (time.getD (b * beam + k) 0 < lens.getD b 0)))

/-- One iteration of the per-EXPAND blank loop (source lines 321-348):
advance all time indices, clamp them with `safe_time`, re-query the joint
with the SAME decoder output, take per-slot top-`beam` labels, conjoin the
blank mask, recompute the active mask from the time indices, and extend
the candidate lists (blank log-probs only while the loop will continue).
The `is_active`/`became_inactive`/`is_inactive` tensors of source lines
323-325 are computed but never used, and are omitted. -/
def innerStep (c : Collab) (blank beam maxT batch : Nat) (lens : List Nat)
    (acc : InnerAcc) : Except DErr InnerAcc :=
  let time2 := acc.time.map (fun t => t + 1)
  let safe := safeTimes beam lens time2
  match checkFrames maxT safe with
  | .error e => .error e
  | .ok _ =>
    let lg := expandLg c beam batch safe acc.decOut
    match topkRows2 beam lg with
    | .error e => .error e
    | .ok tk =>
      let bm2 := and3 acc.blankMask
        (tk.1.map (fun r => r.map (fun s => s.map (fun l => l == blank))))
      let am2 := activeMaskT beam batch time2 lens
      .ok { acc with
            time := time2
            blankMask := bm2
            activeMask := am2
            labelsL := acc.labelsL ++ [tk.1]
            labelLogpsL := acc.labelLogpsL ++ [tk.2]
            blankLogpsL :=
              if any3 bm2 && any2 am2 then acc.blankLogpsL ++ [blankLast3 lg]
              else acc.blankLogpsL }

/-- The per-EXPAND blank loop `while blank_mask.any() and active_mask.any()`
(source line 321). -/
def innerExpand (c : Collab) (blank beam maxT batch : Nat) (lens : List Nat) :
    Nat → InnerAcc → Except DErr InnerAcc
  | 0, _ => .error .fuelExhausted
  | f + 1, acc =>
    if any3 acc.blankMask && any2 acc.activeMask then
      match innerStep c blank beam maxT batch lens acc with
      | .error e => .error e
      | .ok acc2 => innerExpand c blank beam maxT batch lens f acc2
    else .ok acc

/-- Run the computer's `update_beam` on every batch row and assemble the
updated ledger, the selected labels and the parent beam indices. -/
def updateBeamAll (blank beam batch : Nat) (hyps : BeamBatchedHyps)
    (labelsL : List (List (List (List Nat))))
    (labelLogpsL : List (List (List (List Logp))))
    (blankLogpsL : List (List (List (List Logp))))
    : Except DErr (BeamBatchedHyps × List (List Nat) × List (List Nat)) :=
  match mapMRange (fun b =>
      updateBeamRow blank beam
        (hyps.scores.getD b []) (hyps.lastTimestep.getD b [])
        (hyps.transcripts.getD b [])
        (labelsL.map (fun e => e.getD b []))
        (labelLogpsL.map (fun e => e.getD b []))
        (blankLogpsL.map (fun e => e.getD b []))) 0 batch with
  | .error e => .error e
  | .ok rows =>
    .ok ({ scores := rows.map (fun r => r.scores2)
           lastTimestep := rows.map (fun r => r.lt2)
           transcripts := rows.map (fun r => r.tr2) },
         rows.map (fun r => r.labels),
         rows.map (fun r => r.beamIdx))

/-- State of the outer label-looping loop (source lines 300-360). -/
structure ExpandState where
  hyps : BeamBatchedHyps
  labels : List (List Nat)
  decState : List Nat
  predictCalls : Nat
deriving DecidableEq, Repr

/-- One outer EXPAND step (source lines 300-360): read the per-slot time
indices from the ledger, clamp them, run `decoder.predict` exactly once on
the flattened current labels, query the joint, select per-slot top-`beam`
candidates, run the inner blank loop, merge with `update_beam`, and
rearrange the decoder state by the selected parent beam indices (the source
adds `arange(batch).repeat_interleave(beam)` — the batch row, not the row
offset `batch_row * beam` — to the flattened beam index; this is kept as
written). -/
def outerStep (c : Collab) (blank beam maxT batch innerFuel : Nat)
    (lens : List Nat) (st : ExpandState) : Except DErr ExpandState :=
  let time := flat2 st.hyps.lastTimestep
  let safe := safeTimes beam lens time
  let flatLabels := flat2 st.labels
  let prs := (List.range (batch * beam)).map (fun i =>
    c.predict (flatLabels.getD i 0) (st.decState.getD i 0))
  let decOut := prs.map (fun p => p.1)
  let dst := prs.map (fun p => p.2)
  match checkFrames maxT safe with
  | .error e => .error e
  | .ok _ =>
    let lg := expandLg c beam batch safe decOut
    match topkRows2 beam lg with
    | .error e => .error e
    | .ok tk =>
      let zeros3 := (List.range batch).map (fun _ =>
        (List.range beam).map (fun _ => [(some 0 : Logp)]))
      let acc0 : InnerAcc :=
        { time := time
          decOut := decOut
          predictCalls := st.predictCalls + 1
          blankMask := tk.1.map (fun r => r.map (fun s => s.map (fun l => l == blank)))
          activeMask := activeMaskH st.hyps.lastTimestep lens
          labelsL := [tk.1]
          labelLogpsL := [tk.2]
          blankLogpsL := [zeros3, blankLast3 lg] }
      match innerExpand c blank beam maxT batch lens innerFuel acc0 with
      | .error e => .error e
      | .ok accF =>
        match updateBeamAll blank beam batch st.hyps
            accF.labelsL accF.labelLogpsL accF.blankLogpsL with
        | .error e => .error e
        | .ok upd =>
          let beamFlat := flat2 upd.2.2
          let dst2 := (List.range (batch * beam)).map (fun i =>
            dst.getD (beamFlat.getD i 0 + i / beam) 0)
          .ok { hyps := upd.1
                labels := upd.2.1
                decState := dst2
                predictCalls := accF.predictCalls }

/-- The outer loop `while active_mask.any()` (source line 300), with
`active_mask = batched_hyps.last_timestep < encoder_output_length` (source
lines 296 and 358). -/
def outerLoop (c : Collab) (blank beam maxT batch : Nat) (lens : List Nat) :
    Nat → ExpandState → Except DErr ExpandState
  | 0, _ => .error .fuelExhausted
  | f + 1, st =>
    if any2 (activeMaskH st.hyps.lastTimestep lens) then
      match outerStep c blank beam maxT batch (f + 1) lens st with
      | .error e => .error e
      | .ok st2 => outerLoop c blank beam maxT batch lens f st2
    else .ok st

/-- The decoding portion of `loop_labels_torch` (source lines 212-360):
seed phase, beam initialization, and outer loop, up to but excluding the
function's final lines. -/
def decodePhase (c : Collab) (cmp : BeamComputer) (lens : List Nat)
    (maxT fuel : Nat) : Except DErr ExpandState :=
  let batch := lens.length
  let beam := cmp.beam_size
  let blank := cmp.blank_index
  match seedPhase c blank beam maxT batch fuel with
  | .error e => .error e
  | .ok sd =>
    match initBeamAll blank beam batch sd with
    | .error e => .error e
    | .ok ib =>
      outerLoop c blank beam maxT batch lens fuel
        { hyps := ib.1
          labels := ib.2
          decState := List.replicate (batch * beam) sd.dstate
          predictCalls := sd.predictCalls }

/-- Embeds `loop_labels_torch` in full (and hence `__call__`, source lines
474-479): after the outer loop finishes, the source executes `exit()`
(source line 362) before its `return` statement, so the call terminates the
process instead of returning the ledger. -/
def loopLabelsTorch (c : Collab) (cmp : BeamComputer) (lens : List Nat)
    (maxT fuel : Nat) : Except DErr (BeamBatchedHyps × Unit) :=
  match decodePhase c cmp lens maxT fuel with
  | .error e => .error e
  | .ok _ => .error .processExit

/-- Collaborator favoring label `a` (index 0) at every frame, for every
decoder output; vocabulary `{a, blank}` with blank index 1. -/
def cA : Collab :=
  { vocabSize := 2, blankIdx := 1, initState := 0
    predict := fun l _ => (l, l)
    jointLogps := fun _ _ _ => [some 0, some (-5)] }

/-- Collaborator whose top choice is blank at every frame and for every
decoder output; vocabulary `{a, blank}` with blank index 1. -/
def cB : Collab :=
  { vocabSize := 2, blankIdx := 1, initState := 0
    predict := fun l _ => (l, l)
    jointLogps := fun _ _ _ => [some (-5), some 0] }

/-- Collaborator whose joint favors blank at frame 0 and label `a` at
frame 1 for the start-of-sequence decoder output, and favors `a` only at
frame 2 (blank elsewhere) for every other decoder output.  Every decode
step on it consumes at least one blank, so the per-depth candidate lists
always have matching label and blank depths (the shape-mismatch
`IndexError` of `initialize_beam`/`update_beam` is never reached). -/
def cD : Collab :=
  { vocabSize := 2, blankIdx := 1, initState := 0
    predict := fun l _ => (l, l)
    jointLogps := fun _ t d =>
      if d == 1 then
        (if t == 0 then [some (-5), some 0] else [some 0, some (-5)])
      else
        (if t == 2 then [some 0, some (-5)] else [some (-5), some 0]) }

/-- Claim C8: at construction time a `beam_size` argument larger than the
joint vocabulary size is clamped to the vocabulary size rather than causing
a failure; for every `beam_size ≥ 1` the stored beam size equals
`min(beam_size, vocab_size)`.  Construction (`mkBeamComputer`) is total, so
no failure is possible. -/
theorem c8_beam_size_clamped (c : Collab) (beamArg : Nat) (maxSym : Option Nat)
    (h : 1 ≤ beamArg) :
    (mkBeamComputer c beamArg maxSym).beam_size = min beamArg c.vocabSize ∧
    (c.vocabSize < beamArg →
      (mkBeamComputer c beamArg maxSym).beam_size = c.vocabSize) ∧
    (beamArg ≤ c.vocabSize →
      (mkBeamComputer c beamArg maxSym).beam_size = beamArg) := by
  refine ⟨rfl, ?_, ?_⟩ <;> intro hcmp <;> simp [mkBeamComputer] <;> omega

/-- Witness for C8 at `beam_size = 5`, vocabulary size 2. -/
theorem c8_beam_size_clamped_witness :
    (mkBeamComputer cA 5 none).beam_size = min 5 cA.vocabSize ∧
    (cA.vocabSize < 5 → (mkBeamComputer cA 5 none).beam_size = cA.vocabSize) ∧
    (5 ≤ cA.vocabSize → (mkBeamComputer cA 5 none).beam_size = 5) :=
  c8_beam_size_clamped cA 5 none (by decide)

/-- Device of `cuda` type without an explicit index (`index` is `None`). -/
def devCuda : TorchDevice := { deviceType := 1, index := none }

/-- Device of `cpu` type (`index` is `None`). -/
def devCpu : TorchDevice := { deviceType := 0, index := none }

/-- A scratch state with batch capacity 4 and time capacity 8 on `devCuda`. -/
def scratch9 : LoopLabelsState :=
  { batch_size := 4
    max_time := 8
    device := devCuda }

/-- Claim C9 (counterexample): `need_reinit` compares only the device
INDEX, not the device, so two different devices with equal index (here a
`cuda`-type device and a `cpu`-type device, both with index `None`) do not
trigger reallocation even though the storage device differs, refuting the
claimed "if and only if". -/
theorem c9_counterexample :
    need_reinit scratch9 4 8 devCpu = false ∧ devCpu ≠ scratch9.device := by
  exact ⟨rfl, by decide⟩

/-- Claim C9 (amended): for EVERY request — oversized ones included —
`need_reinit` returns true iff the new batch size exceeds the allocated
batch capacity, or the new max time exceeds the allocated time capacity,
or the storage device INDEX differs; and a request that fits the current
capacity on the very same device never triggers reallocation. -/
theorem c9_need_reinit_iff (s : LoopLabelsState) (b t : Nat) (d : TorchDevice) :
    (need_reinit s b t d = true ↔
      (s.batch_size < b ∨ s.max_time < t ∨ s.device.index ≠ d.index)) ∧
    (b ≤ s.batch_size → t ≤ s.max_time → d = s.device →
      need_reinit s b t d = false) := by
  constructor
  · simp [need_reinit, or_assoc]
  · intro hb ht hd
    subst hd
    simp [need_reinit]
    omega

/-- Witness for C9 (amended): the iff at an oversized request (batch 5
against capacity 4, which must reinitialize) and the fits-case at a
request within capacity on the same device. -/
theorem c9_need_reinit_iff_witness :
    (need_reinit scratch9 5 8 devCuda = true ↔
      (scratch9.batch_size < 5 ∨ scratch9.max_time < 8 ∨
        scratch9.device.index ≠ devCuda.index)) ∧
    need_reinit scratch9 3 8 devCuda = false :=
  ⟨(c9_need_reinit_iff scratch9 5 8 devCuda).1,
   (c9_need_reinit_iff scratch9 3 8 devCuda).2 (by decide) (by decide) rfl⟩

/-- Claim C10: in the main decoding loop every joint query reads the
projected encoder output at the clamped index `min(time_index,
encoder_output_length[b] - 1)` (`safe_time`, used through `safeTimes` by
`outerStep` and `innerStep`), so the accessed frame is always inside
`[0, encoder_output_length[b] - 1]` and inside the encoder storage: the
clamped access never raises an indexing error. -/
theorem c10_clamped_frame_access (t len maxT beam : Nat)
    (lens time : List Nat) (h1 : 0 < len) (h2 : len ≤ maxT)
    (h3 : ∀ l ∈ lens, 0 < l ∧ l ≤ maxT) (h4 : 0 < maxT) :
    safe_time t len < len ∧
    getFrame maxT (safe_time t len) = .ok (safe_time t len) ∧
    checkFrames maxT (safeTimes beam lens time) = .ok () := by
  refine ⟨?_, ?_, ?_⟩
  · simp [safe_time]; omega
  · have hlt : safe_time t len < maxT := by simp [safe_time]; omega
    simp [getFrame, hlt]
  · have hall : ∀ s ∈ safeTimes beam lens time, s < maxT := by
      intro s hs
      simp only [safeTimes, List.mem_map, List.mem_range] at hs
      obtain ⟨i, _, rfl⟩ := hs
      by_cases hi : i / beam < lens.length
      · have hmem : lens.getD (i / beam) 0 ∈ lens := by
          rw [List.getD_eq_getElem lens 0 hi]
          exact List.getElem_mem hi
        have hl := h3 _ hmem
        unfold safe_time
        omega
      · have h0 : lens.getD (i / beam) 0 = 0 :=
          List.getD_eq_default lens 0 (by omega)
        unfold safe_time
        omega
    unfold checkFrames
    rw [if_pos]
    rw [List.all_eq_true]
    intro x hx
    exact decide_eq_true (hall x hx)

/-- Witness for C10 at `t = 5`, `len = 2`, `maxT = 3`. -/
theorem c10_clamped_frame_access_witness :
    safe_time 5 2 < 2 ∧
    getFrame 3 (safe_time 5 2) = .ok (safe_time 5 2) ∧
    checkFrames 3 (safeTimes 1 [2] [7]) = .ok () :=
  c10_clamped_frame_access 5 2 3 1 [2] [7] (by decide) (by decide)
    (by decide) (by decide)

/-- Claim C1 (code bug): on a well-behaved input (collaborator `cD`, one
utterance of length 3) the loop runs to completion — the seed loop and
each per-EXPAND inner loop consume exactly one blank, so every candidate
tensor has matching label and blank depths, and all batch elements become
inactive — but the call does not return the finalized ledger: the source
executes `exit()` (line 362) before its `return` statement (whose
`last_decoder_state` is, moreover, never defined), so `__call__`
terminates the process instead of returning normally. -/
theorem c1_exit_before_return :
    loopLabelsTorch cD (mkBeamComputer cD 1 none) [3] 3 20 =
      .error .processExit := by
  rfl

/-- Claim C2 (counterexample): with one utterance of length 3, at a ledger
state whose only slot has `last_timestep = 2 = encoder_output_length - 1`
(such a state is produced directly by `initialize_beam` when the seed loop
consumed two blanks) the code's outer-loop condition (source lines 296,
300, 358) is still true — the loop iterates although the claim says it
iterates only while `last_timestep < encoder_output_length - 1` — and the
crash-free completed run on collaborator `cD` ends with `last_timestep =
3 = encoder_output_length`, not `encoder_output_length - 1 = 2`. -/
theorem c2_counterexample :
    any2 (activeMaskH [[2]] [3]) = true ∧ ¬ ((2 : Nat) < 3 - 1) ∧
    (decodePhase cD (mkBeamComputer cD 1 none) [3] 3 20).map
      (fun st => st.hyps.lastTimestep) = .ok [[3]] ∧
    (3 : Nat) ≠ 3 - 1 := by
  exact ⟨rfl, by decide, rfl, by decide⟩

/-- Claim C3 (code bug): the seed-phase blank-resolution loop (source lines
270-289) has no bound tied to `encoder_output_length`: with a collaborator
whose top choice is always blank (`cB`), one utterance of length 2 in an
encoder buffer of `max_time = 2`, the loop increments the frame index past
the last valid frame and aborts with a tensor indexing error instead of
stopping at `encoder_output_length[b] - 1`. -/
theorem c3_seed_loop_unbounded :
    decodePhase cB (mkBeamComputer cB 1 none) [2] 2 20 =
      .error .indexOutOfBounds := by
  rfl

/-- Claim C4 (code bug): in `update_beam` the cumulative sum over blank
log-probs is taken along the trailing singleton axis (source line 428:
`torch.cumsum(blank_logps, dim=-1)` on a (batch, depth, beam, 1) tensor),
so it is the identity: a candidate found after two blank steps (blank
log-probs -1 then -2, label log-prob -5, parent score -10) is charged only
the final blank's -2, yielding total -17, whereas the accumulated charge
via `cumsumList` — as `initialize_beam` correctly computes along the depth
axis, shown by the analogous `initBeamRow` run scoring -8 = -5 + (0-1-2) —
would give total -18. -/
theorem c4_blank_cumsum_not_accumulated :
    (updateBeamRow 1 1 [some (-10)] [0] [[7]]
        [[[1]], [[1]], [[0]]]
        [[[some (-3)]], [[some (-4)]], [[some (-5)]]]
        [[[some 0]], [[some (-1)]], [[some (-2)]]]).map
      (fun r => (r.scores2, r.numBlanks)) = .ok ([some (-17)], [2]) ∧
    lpAdd (some (-10)) (lpAdd (some (-5))
      ((cumsumList [some 0, some (-1), some (-2)]).getD 2 none)) =
        some (-18) ∧
    (some (-17) : Logp) ≠ some (-18) ∧
    (initBeamRow 1 1 [[1], [1], [0]]
        [[some (-3)], [some (-4)], [some (-5)]]
        [some 0, some (-1), some (-2)]).map (fun r => r.scores) =
      .ok [some (-8)] := by
  exact ⟨rfl, rfl, by decide, rfl⟩

/-- Claim C5 (code bug): the "masking inactive hypothesis" step of
`update_beam` is missing (source lines 443-444 hold only a comment), so
when a blank run reaches the end of the utterance every candidate is
blank-ending, the whole candidate row is masked to `-inf`, the global
top-k selects `-inf`, and the assertion `(logps != float("-inf")).all()`
(source line 459) fires, aborting the call.  On collaborator `cD` with one
utterance of length 2 the seed loop consumes one blank (so
`initialize_beam` sees matching label and blank depths and succeeds with
`last_timestep = 1`), then the single EXPAND step's inner loop runs one
iteration (depths again matched: 2 and 2) and exits via the active mask
with both candidate depths blank — the assert fires on a trace that
follows the source exactly, with no shape mismatch anywhere. -/
theorem c5_assert_fires :
    decodePhase cD (mkBeamComputer cD 1 none) [2] 2 20 =
      .error .assertFailed := by
  rfl

/-- Claim C7 (counterexample): the parent beam indices returned by
`update_beam` need not be distinct: with beam 2 and a first parent whose
two candidates beat everything from the second parent, both survivors
point to parent slot 0, so selected hypotheses are not traceable to
UNIQUE previous-step parents. -/
theorem c7_counterexample :
    (updateBeamRow 2 2 [some 0, some (-100)] [0, 0] [[], []]
        [[[0, 1], [0, 1]]]
        [[[some (-1), some (-2)], [some (-1), some (-2)]]]
        [[[some 0], [some 0]]]).map (fun r => r.beamIdx) = .ok [0, 0] ∧
    ¬ ([0, 0] : List Nat).Nodup := by
  exact ⟨rfl, by decide⟩

theorem getD_range_map {α : Type} (f : Nat → α) (n b : Nat) (d : α) (h : b < n) :
    ((List.range n).map f).getD b d = f b := by
  rw [List.getD_eq_getElem _ d (by simpa using h)]
  simp

theorem getD_map_lt {α β : Type} (g : α → β) (l : List α) (k : Nat) (d : β)
    (d0 : α) (h : k < l.length) : (l.map g).getD k d = g (l.getD k d0) := by
  rw [List.getD_eq_getElem _ d (by simpa using h), List.getD_eq_getElem _ d0 h]
  simp

theorem any2_false_elem (m : List (List Bool)) (h : any2 m = false)
    (r : List Bool) (hr : r ∈ m) (x : Bool) (hx : x ∈ r) : x = false := by
  unfold any2 at h
  rw [List.any_eq_false] at h
  have hrow := h r hr
  rw [Bool.not_eq_true, List.any_eq_false] at hrow
  have := hrow x hx
  simpa using this

theorem outerLoop_ok_inactive (c : Collab) (blank beam maxT batch : Nat)
    (lens : List Nat) : ∀ (fuel : Nat) (st st2 : ExpandState),
    outerLoop c blank beam maxT batch lens fuel st = .ok st2 →
    any2 (activeMaskH st2.hyps.lastTimestep lens) = false := by
  intro fuel
  induction fuel with
  | zero =>
    intro st st2 h
    exact Except.noConfusion h
  | succ f ih =>
    intro st st2 h
    unfold outerLoop at h
    split at h
    · cases hs : outerStep c blank beam maxT batch (f + 1) lens st with
      | error e => rw [hs] at h; exact Except.noConfusion h
      | ok st1 =>
        rw [hs] at h
        exact ih st1 st2 h
    · next hcond =>
      cases h
      simpa using hcond

/-- Claim C2 (amended): the outer loop iterates exactly while some beam
slot of some batch element has `last_timestep < encoder_output_length[b]`
(not `encoder_output_length[b] - 1`), and when it exits every slot of
every batch element satisfies `encoder_output_length[b] ≤ last_timestep`
— so the finishing hypotheses sit at (or beyond) the utterance length,
not at `encoder_output_length[b] - 1`. -/
theorem c2_exit_state (c : Collab) (blank beam maxT batch fuel b k : Nat)
    (lens : List Nat) (st st2 : ExpandState)
    (h : outerLoop c blank beam maxT batch lens fuel st = .ok st2)
    (hb : b < st2.hyps.lastTimestep.length)
    (hk : k < (st2.hyps.lastTimestep.getD b []).length) :
    lens.getD b 0 ≤ (st2.hyps.lastTimestep.getD b []).getD k 0 := by
  have hin := outerLoop_ok_inactive c blank beam maxT batch lens fuel st st2 h
  have hrow : (activeMaskH st2.hyps.lastTimestep lens).getD b [] =
      (st2.hyps.lastTimestep.getD b []).map
        (fun t => decide (t < lens.getD b 0)) :=
    getD_range_map _ _ b [] hb
  have hlen1 : b < (activeMaskH st2.hyps.lastTimestep lens).length := by
    simpa [activeMaskH] using hb
  have hmem1 : (st2.hyps.lastTimestep.getD b []).map
      (fun t => decide (t < lens.getD b 0)) ∈
        activeMaskH st2.hyps.lastTimestep lens := by
    rw [← hrow, List.getD_eq_getElem _ [] hlen1]
    exact List.getElem_mem hlen1
  have helem : ((st2.hyps.lastTimestep.getD b []).map
      (fun t => decide (t < lens.getD b 0))).getD k false =
        decide ((st2.hyps.lastTimestep.getD b []).getD k 0 < lens.getD b 0) :=
    getD_map_lt _ _ k false 0 hk
  have hklen : k < ((st2.hyps.lastTimestep.getD b []).map
      (fun t => decide (t < lens.getD b 0))).length := by
    simpa using hk
  have hmem2 : decide ((st2.hyps.lastTimestep.getD b []).getD k 0 <
      lens.getD b 0) ∈ (st2.hyps.lastTimestep.getD b []).map
        (fun t => decide (t < lens.getD b 0)) := by
    rw [← helem, List.getD_eq_getElem _ false hklen]
    exact List.getElem_mem hklen
  have hfalse := any2_false_elem _ hin _ hmem1 _ hmem2
  simp only [decide_eq_false_iff_not, Nat.not_lt] at hfalse
  exact hfalse

/-- The final state of the decode run of collaborator `cD` on one
utterance of length 3 (also the fixed point of the outer loop there). -/
def c2FinalState : ExpandState :=
  { hyps := { scores := [[some 0]]
              lastTimestep := [[3]]
              transcripts := [[[0, 0]]] }
    labels := [[0]]
    decState := [0]
    predictCalls := 2 }

/-- Witness for C2 (amended) at the final state of the `cD` run (one
utterance of length 3, final `last_timestep` 3). -/
theorem c2_exit_state_witness :
    ([3] : List Nat).getD 0 0 ≤
      (c2FinalState.hyps.lastTimestep.getD 0 []).getD 0 0 :=
  c2_exit_state cD 1 1 3 1 1 0 0 [3] c2FinalState c2FinalState
    (by rfl) (by decide) (by decide)

theorem seedStep_frozen (c : Collab) (blank beam maxT batch : Nat)
    (acc r : SeedAcc) (h : seedStep c blank beam maxT batch acc = .ok r) :
    r.predictCalls = acc.predictCalls ∧ r.decOut = acc.decOut ∧
    r.dstate = acc.dstate := by
  simp only [seedStep] at h
  cases h1 : checkFrames maxT [acc.t + 1] with
  | error e => rw [h1] at h; exact Except.noConfusion h
  | ok u =>
    rw [h1] at h
    cases h2 : topkRows beam (seedLg c batch (acc.t + 1) acc.decOut) with
    | error e => rw [h2] at h; exact Except.noConfusion h
    | ok tk =>
      rw [h2] at h
      cases h
      exact ⟨rfl, rfl, rfl⟩

theorem seedLoop_frozen (c : Collab) (blank beam maxT batch : Nat) :
    ∀ (fuel : Nat) (acc r : SeedAcc),
    seedLoop c blank beam maxT batch fuel acc = .ok r →
    r.predictCalls = acc.predictCalls ∧ r.decOut = acc.decOut ∧
    r.dstate = acc.dstate := by
  intro fuel
  induction fuel with
  | zero => intro acc r h; exact Except.noConfusion h
  | succ f ih =>
    intro acc r h
    unfold seedLoop at h
    split at h
    · cases hs : seedStep c blank beam maxT batch acc with
      | error e => rw [hs] at h; exact Except.noConfusion h
      | ok acc2 =>
        rw [hs] at h
        have h1 := seedStep_frozen c blank beam maxT batch acc acc2 hs
        have h2 := ih acc2 r h
        exact ⟨h2.1.trans h1.1, h2.2.1.trans h1.2.1, h2.2.2.trans h1.2.2⟩
    · cases h
      exact ⟨rfl, rfl, rfl⟩

theorem innerStep_frozen (c : Collab) (blank beam maxT batch : Nat)
    (lens : List Nat) (acc r : InnerAcc)
    (h : innerStep c blank beam maxT batch lens acc = .ok r) :
    r.predictCalls = acc.predictCalls ∧ r.decOut = acc.decOut := by
  simp only [innerStep] at h
  cases h1 : checkFrames maxT (safeTimes beam lens (acc.time.map (fun t => t + 1))) with
  | error e => rw [h1] at h; exact Except.noConfusion h
  | ok u =>
    rw [h1] at h
    cases h2 : topkRows2 beam (expandLg c beam batch
        (safeTimes beam lens (acc.time.map (fun t => t + 1))) acc.decOut) with
    | error e => rw [h2] at h; exact Except.noConfusion h
    | ok tk =>
      rw [h2] at h
      cases h
      exact ⟨rfl, rfl⟩

theorem innerExpand_frozen (c : Collab) (blank beam maxT batch : Nat)
    (lens : List Nat) : ∀ (fuel : Nat) (acc r : InnerAcc),
    innerExpand c blank beam maxT batch lens fuel acc = .ok r →
    r.predictCalls = acc.predictCalls ∧ r.decOut = acc.decOut := by
  intro fuel
  induction fuel with
  | zero => intro acc r h; exact Except.noConfusion h
  | succ f ih =>
    intro acc r h
    unfold innerExpand at h
    split at h
    · cases hs : innerStep c blank beam maxT batch lens acc with
      | error e => rw [hs] at h; exact Except.noConfusion h
      | ok acc2 =>
        rw [hs] at h
        have h1 := innerStep_frozen c blank beam maxT batch lens acc acc2 hs
        have h2 := ih acc2 r h
        exact ⟨h2.1.trans h1.1, h2.2.trans h1.2⟩
    · cases h
      exact ⟨rfl, rfl⟩

theorem outerStep_pc (c : Collab) (blank beam maxT batch innerFuel : Nat)
    (lens : List Nat) (st st2 : ExpandState)
    (h : outerStep c blank beam maxT batch innerFuel lens st = .ok st2) :
    st2.predictCalls = st.predictCalls + 1 := by
  simp only [outerStep] at h
  split at h
  · exact Except.noConfusion h
  · split at h
    · exact Except.noConfusion h
    · split at h
      · exact Except.noConfusion h
      · split at h
        · exact Except.noConfusion h
        · rename_i x1 accF hinner x2 upd hupd
          cases h
          have := innerExpand_frozen c blank beam maxT batch lens innerFuel _ accF hinner
          simpa using this.1

/-- Claim C6: within each blank-resolution inner loop (the seed-phase loop
and the per-EXPAND loop) the joint is re-queried with the SAME decoder
output and `decoder.predict` is never invoked (the decoder output and the
predict-call counter are unchanged by the loops), `predict` is called
exactly once per outer EXPAND step, and exactly once in the whole SEED
phase. -/
theorem c6_predict_once_per_step (c : Collab)
    (blank beam maxT batch innerFuel seedFuel sf2 : Nat) (lens : List Nat)
    (sacc sr sp : SeedAcc) (iacc ir : InnerAcc) (st st2 : ExpandState)
    (hs : seedLoop c blank beam maxT batch seedFuel sacc = .ok sr)
    (hi : innerExpand c blank beam maxT batch lens innerFuel iacc = .ok ir)
    (ho : outerStep c blank beam maxT batch innerFuel lens st = .ok st2)
    (hp : seedPhase c blank beam maxT batch sf2 = .ok sp) :
    sr.predictCalls = sacc.predictCalls ∧ sr.decOut = sacc.decOut ∧
    ir.predictCalls = iacc.predictCalls ∧ ir.decOut = iacc.decOut ∧
    st2.predictCalls = st.predictCalls + 1 ∧ sp.predictCalls = 1 := by
  have h1 := seedLoop_frozen c blank beam maxT batch seedFuel sacc sr hs
  have h2 := innerExpand_frozen c blank beam maxT batch lens innerFuel iacc ir hi
  have h3 := outerStep_pc c blank beam maxT batch innerFuel lens st st2 ho
  have h4 : sp.predictCalls = 1 := by
    simp only [seedPhase] at hp
    cases hc : checkFrames maxT [0] with
    | error e => rw [hc] at hp; exact Except.noConfusion hp
    | ok u =>
      rw [hc] at hp
      cases ht : topkRows beam (seedLg c batch 0
          (List.replicate batch (c.predict blank c.initState).1)) with
      | error e => rw [ht] at hp; exact Except.noConfusion hp
      | ok tk =>
        rw [ht] at hp
        have := seedLoop_frozen c blank beam maxT batch sf2 _ sp hp
        simpa using this.1
  exact ⟨h1.1, h1.2.1, h2.1, h2.2, h3, h4⟩

/-- A seed accumulator with an exhausted blank mask and 7 recorded predict
calls, fixed by `seedLoop`. -/
def wSeedAcc : SeedAcc :=
  { t := 0
    decOut := []
    dstate := 0
    predictCalls := 7
    blankMask := []
    labelsL := []
    labelLogpsL := []
    blankLogpsL := [] }

/-- An inner-loop accumulator with an exhausted blank mask and 5 recorded
predict calls, fixed by `innerExpand`. -/
def wInnerAcc : InnerAcc :=
  { time := []
    decOut := []
    predictCalls := 5
    blankMask := []
    activeMask := []
    labelsL := []
    labelLogpsL := []
    blankLogpsL := [] }

/-- A batch-0 expand state with 7 recorded predict calls. -/
def wStA : ExpandState :=
  { hyps := { scores := [], lastTimestep := [], transcripts := [] }
    labels := []
    decState := []
    predictCalls := 7 }

/-- The batch-0 expand state after one outer step from `wStA`. -/
def wStB : ExpandState :=
  { hyps := { scores := [], lastTimestep := [], transcripts := [] }
    labels := []
    decState := []
    predictCalls := 8 }

/-- The seed accumulator produced by `seedPhase` on collaborator `cA` with
batch 0. -/
def wSp : SeedAcc :=
  { t := 0
    decOut := []
    dstate := 1
    predictCalls := 1
    blankMask := []
    labelsL := [[]]
    labelLogpsL := [[]]
    blankLogpsL := [[], []] }

/-- Witness for C6 at concrete loop runs (batch 0, collaborator `cA`). -/
theorem c6_predict_once_per_step_witness :
    wSeedAcc.predictCalls = wSeedAcc.predictCalls ∧
    wSeedAcc.decOut = wSeedAcc.decOut ∧
    wInnerAcc.predictCalls = wInnerAcc.predictCalls ∧
    wInnerAcc.decOut = wInnerAcc.decOut ∧
    wStB.predictCalls = wStA.predictCalls + 1 ∧ wSp.predictCalls = 1 :=
  c6_predict_once_per_step cA 1 1 2 0 1 1 1 [] wSeedAcc wSeedAcc wSp
    wInnerAcc wInnerAcc wStA wStB (by rfl) (by rfl) (by rfl) (by rfl)

theorem assertCheck_ok (b : Bool) (u : Unit) (h : assertCheck b = .ok u) :
    b = true := by
  unfold assertCheck at h
  split at h
  · assumption
  · exact Except.noConfusion h

/-- Claim C7 (amended): whenever the computer's `update_beam` succeeds for a
batch row, the row holds exactly `min(beam_size, vocabulary_size)` live
hypotheses (labels, parent indices and scores all have that length), and
every selected hypothesis is traceable to a VALID previous-step parent
(each returned beam index is `< beam_size`) — but, per the counterexample,
not necessarily to a UNIQUE one. -/
theorem c7_beam_count (cv : Collab) (beamArg blank : Nat) (maxSym : Option Nat)
    (rowScores : List Logp) (rowLt : List Nat) (rowTr : List (List Nat))
    (labelsD : List (List (List Nat))) (labelLogpsD : List (List (List Logp)))
    (blankD : List (List (List Logp))) (r : RowSel)
    (h : updateBeamRow blank (mkBeamComputer cv beamArg maxSym).beam_size
      rowScores rowLt rowTr labelsD labelLogpsD blankD = .ok r) :
    r.labels.length = min beamArg cv.vocabSize ∧
    r.beamIdx.length = min beamArg cv.vocabSize ∧
    r.scores2.length = min beamArg cv.vocabSize ∧
    r.beamIdx.all (fun j => decide (j < min beamArg cv.vocabSize)) = true := by
  simp only [updateBeamRow] at h
  split at h
  · exact Except.noConfusion h
  · split at h
    · split at h
      · exact Except.noConfusion h
      · split at h
        · exact Except.noConfusion h
        · split at h
          · exact Except.noConfusion h
          · split at h
            · exact Except.noConfusion h
            · split at h
              · exact Except.noConfusion h
              · split at h
                · exact Except.noConfusion h
                · rename_i x5 pr h5 x4 a4 h4 x3 a3 h3 x2 a2 h2 x1 a1 h1 x0 a0 h0
                  cases h
                  have hlen := topkChecked_ok_length _ _ pr h5
                  have hbi := assertCheck_ok _ _ h1
                  refine ⟨?_, ?_, ?_, ?_⟩
                  · simpa [mkBeamComputer] using hlen.1
                  · simpa [mkBeamComputer] using hlen.1
                  · simp only [RowSel.scores2, List.length_map, List.length_zip]
                    simp [mkBeamComputer] at hlen ⊢
                    omega
                  · simpa [mkBeamComputer] using hbi
    · exact Except.noConfusion h

/-- Witness for C7 (amended) at the beam-2 counterexample input (where the
row holds exactly 2 live hypotheses with valid, but equal, parents). -/
theorem c7_beam_count_witness :
    (RowSel.mk [0, 1] [0, 0] [0, 0] [some (-1), some (-2)] [1, 1]
        [[0], [1]]).labels.length = min 2 cA.vocabSize ∧
    (RowSel.mk [0, 1] [0, 0] [0, 0] [some (-1), some (-2)] [1, 1]
        [[0], [1]]).beamIdx.length = min 2 cA.vocabSize ∧
    (RowSel.mk [0, 1] [0, 0] [0, 0] [some (-1), some (-2)] [1, 1]
        [[0], [1]]).scores2.length = min 2 cA.vocabSize ∧
    (RowSel.mk [0, 1] [0, 0] [0, 0] [some (-1), some (-2)] [1, 1]
        [[0], [1]]).beamIdx.all (fun j => decide (j < min 2 cA.vocabSize)) = true :=
  c7_beam_count cA 2 2 none [some 0, some (-100)] [0, 0] [[], []]
    [[[0, 1], [0, 1]]]
    [[[some (-1), some (-2)], [some (-1), some (-2)]]]
    [[[some 0], [some 0]]]
    (RowSel.mk [0, 1] [0, 0] [0, 0] [some (-1), some (-2)] [1, 1] [[0], [1]])
    (by rfl)
